import Mathlib

/-!
# Verification of the nanoleaf-go core against its specification

Shallow embedding of the repository's core components:

* `NanoleafService` (orchestration layer, `internal` package): `ScanForDevices`,
  `PairWithDevice`, `SetDevicePower`, `SetBrightness`, `GetDeviceInfo`,
  `LoadConfiguration`, each returning a `ServiceResult`.
* `FileConfigManager` (session store): `Save`, `Load`, `Exists`.
* `Device` (session state machine): `SetDevice`, `IsDeviceReady`, `SetBrightness`.
* `NetworkScanner.Scan` (concurrent subnet scan): jobs generation, worker
  probing and the collection loop, with the scheduler's choices made explicit.

The device API (`NanoleafClient`) and the session store are external
collaborators; they are modelled as response functions, and each service
operation additionally returns the list of device-API calls it performed, so
that "never invokes the device API" becomes a statement about that list.
File I/O and JSON (de)serialization are out of core scope (spec §1) and are
abstracted: the store state holds either nothing, a well-formed two-field
record, or opaque corrupt content (covering read/unmarshal failures).
-/

namespace NanoleafGo

/-- The two-field persisted configuration (`Config` in `config.go`):
JSON keys `ip` and `token`. -/
structure Config where
  ip : String
  token : String
  deriving Repr, DecidableEq

/-- One call to the device-API collaborator (`NanoleafClient` interface).
Recording these calls lets theorems state that an operation did or did not
reach the network. -/
inductive ClientCall where
  | pairCall (ip : String)
  | setPowerCall (ip token : String) (isOn : Bool)
  | getInfoCall (ip token : String)
  | setBrightnessCall (ip token : String) (b : Int)
  deriving Repr, DecidableEq

/-- Responses of the device-API collaborator, one function per endpoint of the
`NanoleafClient` interface (`nanoleaf_client.go`).  `Info` is the parsed JSON
payload returned by `GetInfo`, opaque to the core. -/
structure ClientResponses (Info : Type) where
  pairResp : String → Except String String
  setPowerResp : String → String → Bool → Except String Unit
  getInfoResp : String → String → Except String Info
  setBrightnessResp : String → String → Int → Except String Unit

/-- The variants carried by `ServiceResult.Data` (an `interface{}` in Go). -/
inductive ResultData (Info : Type) where
  | nodata
  | devices (l : List String)
  | tok (t : String)
  | config (c : Config)
  | info (v : Info)
  deriving Repr

/-- `ServiceResult` (`service.go`): the only type crossing the orchestration
boundary. -/
structure ServiceResult (Info : Type) where
  success : Bool
  message : String
  data : ResultData Info

/-- Responses of the session-store collaborator as seen by the service
(`ConfigManager` interface). -/
structure CMResponses where
  saveResp : String → String → Except String Unit
  existsResp : Bool
  loadResp : Except String Config

/-- `NanoleafService.PairWithDevice` (`service.go`): empty ip fails locally;
a pairing error is surfaced; on success the credential is returned as data and
the store's `Save` is invoked with its result discarded. -/
def pairWithDevice {Info : Type} (c : ClientResponses Info) (cm : CMResponses)
    (ip : String) : ServiceResult Info × List ClientCall :=
  if ip = "" then
    ({ success := false, message := "No device IP provided. Please scan first.",
       data := .nodata }, [])
  else
    match c.pairResp ip with
    | .error e =>
        ({ success := false, message := "Pairing failed: " ++ e, data := .nodata },
         [ClientCall.pairCall ip])
    | .ok token =>
        -- `s.configManager.Save(ip, token)` : return value ignored by the Go code
        let _saved := cm.saveResp ip token
        ({ success := true, message := "Device paired successfully", data := .tok token },
         [ClientCall.pairCall ip])

/-- `NanoleafService.SetDevicePower` (`service.go`). -/
def setDevicePower {Info : Type} (c : ClientResponses Info)
    (ip token : String) (isOn : Bool) : ServiceResult Info × List ClientCall :=
  if ip = "" ∨ token = "" then
    ({ success := false, message := "Device not paired. Please scan and pair first.",
       data := .nodata }, [])
  else
    let action := if isOn then "on" else "off"
    match c.setPowerResp ip token isOn with
    | .error e =>
        ({ success := false,
           message := "Failed to turn " ++ action ++ " device: " ++ e,
           data := .nodata }, [ClientCall.setPowerCall ip token isOn])
    | .ok _ =>
        ({ success := true,
           message := "Device turned " ++ action ++ " successfully",
           data := .nodata }, [ClientCall.setPowerCall ip token isOn])

/-- `NanoleafService.GetDeviceInfo` (`service.go`). -/
def getDeviceInfo {Info : Type} (c : ClientResponses Info)
    (ip token : String) : ServiceResult Info × List ClientCall :=
  if ip = "" ∨ token = "" then
    ({ success := false, message := "Device not paired. Please scan and pair first.",
       data := .nodata }, [])
  else
    match c.getInfoResp ip token with
    | .error e =>
        ({ success := false, message := "Failed to get device info: " ++ e,
           data := .nodata }, [ClientCall.getInfoCall ip token])
    | .ok v =>
        ({ success := true, message := "Device info retrieved successfully",
           data := .info v }, [ClientCall.getInfoCall ip token])

/-- `NanoleafService.SetBrightness` (`service.go`): note that the Go code
forwards the level to the client without any range check. -/
def setBrightnessService {Info : Type} (c : ClientResponses Info)
    (ip token : String) (b : Int) : ServiceResult Info × List ClientCall :=
  if ip = "" ∨ token = "" then
    ({ success := false, message := "Device not paired. Please scan and pair first.",
       data := .nodata }, [])
  else
    match c.setBrightnessResp ip token b with
    | .error e =>
        ({ success := false, message := "Failed to set device brightness: " ++ e,
           data := .nodata }, [ClientCall.setBrightnessCall ip token b])
    | .ok _ =>
        ({ success := true,
           message := "Brightness set to " ++ toString b ++ " successfully",
           data := .nodata }, [ClientCall.setBrightnessCall ip token b])

/-- `NanoleafService.LoadConfiguration` (`service.go`), parametrized by the
store collaborator's responses. -/
def loadConfigurationWith {Info : Type} (cm : CMResponses) : ServiceResult Info :=
  if cm.existsResp = false then
    { success := false, message := "No saved configuration found", data := .nodata }
  else
    match cm.loadResp with
    | .error e =>
        { success := false, message := "Failed to load configuration: " ++ e,
          data := .nodata }
    | .ok config =>
        { success := true, message := "Configuration loaded successfully",
          data := .config config }

/-! ## Session store (`FileConfigManager`, `config.go`)

The persisted file is modelled as `Option FileContent`: `none` when no file
exists, `some (record c)` for a well-formed two-field JSON record, and
`some (corrupt e)` for content that fails to read or unmarshal (file I/O and
JSON codecs are external collaborators per spec §1, so the record itself is
stored rather than its bytes). -/

/-- Contents of the configuration file on disk. -/
inductive FileContent where
  | record (c : Config)
  | corrupt (e : String)
  deriving Repr, DecidableEq

/-- The state of the session store: the configuration file, if present. -/
abbrev StoreState := Option FileContent

/-- `FileConfigManager.Save`: rejects an empty ip or token before any write;
otherwise overwrites the file with the two-field record. -/
def cmSave (ip token : String) (st : StoreState) : Except String Unit × StoreState :=
  if ip = "" ∨ token = "" then
    (.error "ip and token cannot be empty", st)
  else
    (.ok (), some (FileContent.record { ip := ip, token := token }))

/-- `FileConfigManager.Exists`: whether the configuration file is present. -/
def cmExists (st : StoreState) : Bool :=
  st.isSome

/-- `FileConfigManager.Load`: missing file, unreadable/unparsable content and
a record with an empty field are all errors; otherwise the record is
returned. -/
def cmLoad (st : StoreState) : Except String Config :=
  match st with
  | none => .error "config file does not exist"
  | some (.corrupt e) => .error ("failed to unmarshal config: " ++ e)
  | some (.record c) =>
      if c.ip = "" ∨ c.token = "" then
        .error "invalid configuration: missing IP or token"
      else
        .ok c

/-- `NanoleafService.LoadConfiguration` wired to the `FileConfigManager`
model, as in `main.go`. -/
def loadConfiguration (Info : Type) (st : StoreState) : ServiceResult Info :=
  loadConfigurationWith
    { saveResp := fun ip token => (cmSave ip token st).1
      existsResp := cmExists st
      loadResp := cmLoad st }

/-! ## The session state machine (`Device`, `device.go`) -/

/-- `Device.SetDevice` (`device.go`): stores the new address.  Note that the
Go code assigns only `d.config.IP`.  -/
def setDevice (cfg : Config) (ip : String) : Config :=
  { cfg with ip := ip }

/-- `Device.IsDeviceReady` (`device.go`): false when the address or credential
is empty, otherwise the result of probing the device API's `getInfo` with the
stored address/credential.  Returns the calls made alongside the verdict. -/
def isDeviceReady {Info : Type} (getInfoFn : String → String → Except String Info)
    (cfg : Config) : Bool × List ClientCall :=
  if cfg.ip = "" ∨ cfg.token = "" then
    (false, [])
  else
    match getInfoFn cfg.ip cfg.token with
    | .ok _ => (true, [ClientCall.getInfoCall cfg.ip cfg.token])
    | .error _ => (false, [ClientCall.getInfoCall cfg.ip cfg.token])

/-- `Device.SetBrightness` (`device.go`): validates the closed range [0,100]
before any client call. -/
def deviceSetBrightness (setBrightnessFn : String → String → Int → Except String Unit)
    (cfg : Config) (b : Int) : Except String Unit × List ClientCall :=
  if b < 0 ∨ b > 100 then
    (.error "brightness must be between 0 and 100", [])
  else
    (setBrightnessFn cfg.ip cfg.token b, [ClientCall.setBrightnessCall cfg.ip cfg.token b])

/-- The presentation model's session fields (`model` in `main.go`): the first
discovered device address and the credential obtained by pairing. -/
structure UIModel where
  ip : String
  token : String

/-- The `case pair:` arm of `main.go`'s `handleAction`: on a successful pair
result whose data is a credential string, the in-memory session stores it. -/
def updateTokenAfterPair {Info : Type} (m : UIModel) (r : ServiceResult Info) : UIModel :=
  if r.success then
    match r.data with
    | .tok t => { m with token := t }
    | _ => m
  else m

/-! ## The network scan (`NetworkScanner.Scan`, `scanner.go`)

The scan is concurrent; its embedding makes the scheduler explicit.
`Scan` sends the 254 candidate addresses (`fmt.Sprintf("%s%d", subnet, i)`
for `i = 1..254`) into a jobs channel consumed in FIFO order by 50 workers;
each worker that receives a job reports either the address (probe succeeded)
or the empty-string marker.  The collection loop `select`s between the
results channel and `ctx.Done()`: when both are ready Go chooses randomly, so
the loop is modelled as a function of a schedule `sched` that says, per
iteration, whether the `ctx.Done()` branch wins (only possible once the
context is cancelled). -/

/-- Outcome of `NetworkScanner.Scan`: either the device list with a nil
error, or the context's cancellation error. -/
inductive ScanOutcome where
  | ok (devices : List String)
  | cancelled
  deriving Repr, DecidableEq

/-- One candidate address: `fmt.Sprintf("%s%d", subnet, i)`. -/
def mkIp (subnet : String) (i : Nat) : String :=
  subnet ++ Nat.repr i

/-- The 254 jobs sent by `Scan`: suffixes 1..254 rendered onto the prefix. -/
def scanJobs (subnet : String) : List String :=
  (List.range' 1 254).map (mkIp subnet)

/-- A worker's report for one job (`worker` in `scanner.go`): the address if
`isNanoleafDevice` succeeded, the empty marker otherwise. -/
def probeMark (reachable : String → Bool) (ip : String) : String :=
  if reachable ip then ip else ""

/-- The collection loop of `Scan`: `reports` are the values that will arrive
on the results channel before it closes, `devices` the accumulated non-empty
addresses.  When `cancelActive` and the schedule picks the `ctx.Done()`
branch, the loop returns the cancellation error (discarding `devices`); when
the channel closes (`reports` exhausted) it returns the accumulated list. -/
def collectLoop (cancelActive : Bool) (sched : Nat → Bool) (n : Nat)
    (reports devices : List String) : ScanOutcome :=
  if cancelActive && sched n then
    .cancelled
  else
    match reports with
    | [] => .ok devices
    | ip :: rest =>
        collectLoop cancelActive sched (n + 1) rest
          (if ip = "" then devices else devices ++ [ip])

/-- A scan that runs to normal completion: the context is never cancelled,
every one of the 254 jobs is probed exactly once, and the reports arrive in
the worker-completion order `order` (a permutation of the suffixes). -/
def scanNormal (subnet : String) (reachable : String → Bool) (order : List Nat) : ScanOutcome :=
  collectLoop false (fun _ => false) 0
    ((order.map (mkIp subnet)).map (probeMark reachable)) []

/-- A scan whose context was cancelled after only the first `k` jobs were
probed and reported (jobs are consumed in FIFO order, so the reports are a
prefix of the candidate list); `sched` resolves the race in the collection
loop's `select`. -/
def scanCancelledRun (subnet : String) (reachable : String → Bool) (k : Nat)
    (sched : Nat → Bool) : ScanOutcome :=
  collectLoop true sched 0 (((scanJobs subnet).take k).map (probeMark reachable)) []

/-! ## Concrete collaborators used by witnesses -/

/-- A device API whose every endpoint succeeds; pairing issues the
credential "TOKEN". -/
def okClient : ClientResponses Unit :=
  { pairResp := fun _ => .ok "TOKEN"
    setPowerResp := fun _ _ _ => .ok ()
    getInfoResp := fun _ _ => .ok ()
    setBrightnessResp := fun _ _ _ => .ok () }

/-- A session store whose `Save` always fails (e.g. the disk is full). -/
def failSaveCM : CMResponses :=
  { saveResp := fun _ _ => .error "disk full"
    existsResp := false
    loadResp := .error "config file does not exist" }

/-- Reads a decimal digit string back into a number; a left inverse of
`Nat.repr` used to show that distinct suffixes render to distinct
addresses. -/
def parseNat (cs : List Char) : Nat :=
  cs.foldl (fun acc c => acc * 10 + (c.toNat - 48)) 0

/-! ## Auxiliary lemmas -/

set_option maxRecDepth 4000 in
/-- Reading back the decimal rendering of each candidate suffix recovers the
suffix. -/
theorem repr_parse_range : ∀ i ∈ List.range' 1 254, parseNat (Nat.repr i).data = i := by
  decide

set_option maxRecDepth 4000 in
/-- No candidate suffix renders to the empty string (the worker's empty
marker). -/
theorem repr_ne_empty_range : ∀ i ∈ List.range' 1 254, Nat.repr i ≠ "" := by
  decide

/-- Appending to a fixed prefix is injective on strings. -/
theorem string_append_cancel {s a b : String} (h : s ++ a = s ++ b) : a = b := by
  cases s with
  | mk sd =>
  cases a with
  | mk ad =>
  cases b with
  | mk bd =>
  have h2 : sd ++ ad = sd ++ bd := congrArg String.data h
  have h3 := List.append_cancel_left h2
  simp [h3]

/-- Appending a non-empty string yields a non-empty string. -/
theorem string_append_ne_empty {s a : String} (h : a ≠ "") : s ++ a ≠ "" := by
  intro hc
  apply h
  cases s with
  | mk sd =>
  cases a with
  | mk ad =>
  have h2 : sd ++ ad = ([] : List Char) := congrArg String.data hc
  rcases List.append_eq_nil.mp h2 with ⟨h3, h4⟩
  simp [h4]

/-- Distinct suffixes in 1..254 render to distinct candidate addresses. -/
theorem mkIp_inj_on_range (subnet : String) :
    ∀ i ∈ List.range' 1 254, ∀ j ∈ List.range' 1 254,
      mkIp subnet i = mkIp subnet j → i = j := by
  intro i hi j hj h
  have h2 : Nat.repr i = Nat.repr j := string_append_cancel h
  have h3 := congrArg (fun s => parseNat (String.data s)) h2
  simpa [repr_parse_range i hi, repr_parse_range j hj] using h3

/-- No candidate address collides with the worker's empty marker. -/
theorem mkIp_ne_empty (subnet : String) {i : Nat} (hi : i ∈ List.range' 1 254) :
    mkIp subnet i ≠ "" :=
  string_append_ne_empty (repr_ne_empty_range i hi)

/-- With the context never cancelled, the collection loop drains every report
and keeps exactly the non-empty ones, in arrival order. -/
theorem collectLoop_no_cancel (sched : Nat → Bool) :
    ∀ (reports devices : List String) (n : Nat),
      collectLoop false sched n reports devices =
        .ok (devices ++ reports.filter (fun s => !(s == ""))) := by
  intro reports
  induction reports with
  | nil => intro devices n; simp [collectLoop]
  | cons ip rest ih =>
      intro devices n
      rw [collectLoop]
      simp only [Bool.false_and, if_neg Bool.false_ne_true]
      rw [ih]
      by_cases h : ip = ""
      · simp [h, List.filter_cons]
      · simp [h, List.filter_cons]

/-- Keeping the non-empty reports of a batch of probes amounts to filtering
the probed addresses by reachability, provided no probed address is itself
the empty marker. -/
theorem filter_probeMark (reachable : String → Bool) :
    ∀ (l : List String), (∀ ip ∈ l, ip ≠ "") →
      (l.map (probeMark reachable)).filter (fun s => !(s == "")) = l.filter reachable := by
  intro l
  induction l with
  | nil => intro _; simp
  | cons ip rest ih =>
      intro h
      have hip : ip ≠ "" := h ip (by simp)
      have hrest := ih (fun x hx => h x (by simp [hx]))
      cases hr : reachable ip
      · simp [probeMark, hr, List.filter_cons, hrest]
      · simp [probeMark, hr, List.filter_cons, hip, hrest]

/-! ## Claims -/

/-- Claim C1, counterexample: with a non-empty address and credential and the
out-of-range level 101, the orchestration service's `SetBrightness` does not
fail locally — it invokes the device API's `SetBrightness` and reports
success when the client succeeds, so "fails locally and never invokes the
device API" is false on the code. -/
theorem service_brightness_range_claim_cex :
    (setBrightnessService okClient "192.168.1.100" "TK" 101).1.success = true ∧
    (setBrightnessService okClient "192.168.1.100" "TK" 101).2 =
      [ClientCall.setBrightnessCall "192.168.1.100" "TK" 101] :=
  ⟨rfl, rfl⟩

/-- Claim C1, amended: the [0,100] range validation lives in the `Device`
component, not in the orchestration service.  With a non-empty address and
credential the service's `SetBrightness` always invokes the device API
exactly once, forwarding any level unchecked, whereas `Device.SetBrightness`
fails locally with an error and performs no client call whenever the level is
outside [0,100]. -/
theorem brightness_validation_located :
    (∀ (Info : Type) (c : ClientResponses Info) (ip token : String) (b : Int),
      ip ≠ "" → token ≠ "" →
      (setBrightnessService c ip token b).2 = [ClientCall.setBrightnessCall ip token b]) ∧
    (∀ (f : String → String → Int → Except String Unit) (cfg : Config) (b : Int),
      b < 0 ∨ b > 100 →
      deviceSetBrightness f cfg b = (.error "brightness must be between 0 and 100", [])) := by
  constructor
  · intro Info c ip token b hip htok
    rw [setBrightnessService, if_neg (by simp [hip, htok])]
    cases c.setBrightnessResp ip token b <;> rfl
  · intro f cfg b hb
    rw [deviceSetBrightness, if_pos hb]

/-- Claim C1, witness: the amended statement at the level 101 with a
non-empty address and credential, and at a device session with level 101. -/
theorem brightness_validation_located_witness :
    ("192.168.1.100" ≠ "" ∧ "TK" ≠ "" ∧
      (setBrightnessService okClient "192.168.1.100" "TK" (101 : Int)).2 =
        [ClientCall.setBrightnessCall "192.168.1.100" "TK" 101]) ∧
    (((101 : Int) < 0 ∨ (101 : Int) > 100) ∧
      deviceSetBrightness (fun _ _ _ => Except.ok ())
          { ip := "10.0.0.5", token := "T1" } 101 =
        (.error "brightness must be between 0 and 100", [])) :=
  ⟨⟨by decide, by decide,
    brightness_validation_located.1 Unit okClient "192.168.1.100" "TK" 101
      (by decide) (by decide)⟩,
   ⟨by decide,
    brightness_validation_located.2 (fun _ _ _ => Except.ok ())
      { ip := "10.0.0.5", token := "T1" } 101 (by decide)⟩⟩

/-- Claim C2, counterexample: `SetDevice` on a paired session stores the new
address but keeps the previously stored credential, so the credential field
is not empty afterwards. -/
theorem setDevice_keeps_token_cex :
    setDevice { ip := "1.2.3.4", token := "T1" } "5.6.7.8" =
      { ip := "5.6.7.8", token := "T1" } ∧
    (setDevice { ip := "1.2.3.4", token := "T1" } "5.6.7.8").token ≠ "" :=
  ⟨rfl, by decide⟩

/-- Claim C2, amended: from every session state, `SetDevice(addr)` stores the
new address and leaves the stored credential unchanged (a new address does
not invalidate pairing). -/
theorem setDevice_keeps_token (cfg : Config) (ip : String) :
    (setDevice cfg ip).ip = ip ∧ (setDevice cfg ip).token = cfg.token :=
  ⟨rfl, rfl⟩

/-- Claim C3: the all-or-nothing cancellation contract is not enforced by the
code.  With the context cancelled after only 3 of the 254 reports were
delivered (all three probes successful) and the collection loop's `select`
resolving each race in favour of the results channel, `Scan` returns the
3-element partial list with a nil error; the cancellation error is returned
only on schedules where the `ctx.Done()` branch wins. -/
theorem scan_cancelled_partial_list_race :
    scanCancelledRun "10.0.0." (fun _ => true) 3 (fun _ => false) =
      ScanOutcome.ok ["10.0.0.1", "10.0.0.2", "10.0.0.3"] ∧
    scanCancelledRun "10.0.0." (fun _ => true) 3 (fun _ => true) =
      ScanOutcome.cancelled :=
  ⟨rfl, rfl⟩

/-- Claim C4: for every subnet prefix, the scan's job list holds exactly the
254 candidates with suffixes 1..254 and no two candidates coincide; a scan
completing normally (no cancellation; each candidate probed and reported
exactly once, in any worker-completion order) returns a device list with no
duplicates, of size at most 254, containing exactly the candidates whose
probe succeeded. -/
theorem scan_normal_correct (subnet : String) (reachable : String → Bool)
    (order : List Nat) (hperm : order.Perm (List.range' 1 254)) :
    (scanJobs subnet).length = 254 ∧ (scanJobs subnet).Nodup ∧
    ∃ devices, scanNormal subnet reachable order = ScanOutcome.ok devices ∧
      devices.Nodup ∧ devices.length ≤ 254 ∧
      (∀ a, a ∈ devices ↔ a ∈ scanJobs subnet ∧ reachable a = true) := by
  have hjlen : (scanJobs subnet).length = 254 := by simp [scanJobs]
  have hjnodup : (scanJobs subnet).Nodup :=
    List.Nodup.map_on (mkIp_inj_on_range subnet) (List.nodup_range' 1 254)
  have hmem : ∀ i ∈ order, i ∈ List.range' 1 254 := fun i hi => hperm.mem_iff.mp hi
  have hne : ∀ ip ∈ order.map (mkIp subnet), ip ≠ "" := by
    intro ip hip
    rcases List.mem_map.mp hip with ⟨i, hi, rfl⟩
    exact mkIp_ne_empty subnet (hmem i hi)
  have hrun : scanNormal subnet reachable order =
      .ok ((order.map (mkIp subnet)).filter reachable) := by
    rw [scanNormal, collectLoop_no_cancel, List.nil_append,
      filter_probeMark reachable _ hne]
  refine ⟨hjlen, hjnodup, (order.map (mkIp subnet)).filter reachable, hrun, ?_, ?_, ?_⟩
  · have hordnodup : order.Nodup := hperm.nodup_iff.mpr (List.nodup_range' 1 254)
    have hmnodup : (order.map (mkIp subnet)).Nodup :=
      List.Nodup.map_on
        (fun x hx y hy h => mkIp_inj_on_range subnet x (hmem x hx) y (hmem y hy) h)
        hordnodup
    exact hmnodup.filter _
  · have h1 : ((order.map (mkIp subnet)).filter reachable).length ≤
        (order.map (mkIp subnet)).length := List.length_filter_le _ _
    have h2 : (order.map (mkIp subnet)).length = 254 := by
      rw [List.length_map, hperm.length_eq, List.length_range']
    omega
  · intro a
    rw [List.mem_filter]
    have hmaps : a ∈ order.map (mkIp subnet) ↔ a ∈ scanJobs subnet :=
      (hperm.map (mkIp subnet)).mem_iff
    rw [hmaps]

/-- Claim C4, witness: a normal scan over the prefix "192.168.1." in which
no probe succeeds, with the reports arriving in suffix order. -/
theorem scan_normal_correct_witness :
    (scanJobs "192.168.1.").length = 254 ∧ (scanJobs "192.168.1.").Nodup ∧
    ∃ devices,
      scanNormal "192.168.1." (fun _ => false) (List.range' 1 254) =
        ScanOutcome.ok devices ∧
      devices.Nodup ∧ devices.length ≤ 254 ∧
      (∀ a, a ∈ devices ↔ a ∈ scanJobs "192.168.1." ∧ (fun _ => false) a = true) :=
  scan_normal_correct "192.168.1." (fun _ => false) (List.range' 1 254)
    (List.Perm.refl _)

/-- Claim C5: whenever the device API's `Pair` succeeds with credential `t`
and the address is non-empty, `PairWithDevice` reports success with `t` as
its data, and the in-memory session (the presentation model that consumes
the result) stores `t` — for every behaviour of the session store's `Save`,
including failing ones. -/
theorem pair_success_survives_save_failure {Info : Type} (c : ClientResponses Info)
    (cm : CMResponses) (ip t : String) (m : UIModel)
    (hip : ip ≠ "") (hp : c.pairResp ip = .ok t) :
    (pairWithDevice c cm ip).1.success = true ∧
    (pairWithDevice c cm ip).1.data = ResultData.tok t ∧
    (updateTokenAfterPair m (pairWithDevice c cm ip).1).token = t := by
  have hres : pairWithDevice c cm ip =
      ({ success := true, message := "Device paired successfully", data := .tok t },
       [ClientCall.pairCall ip]) := by
    simp [pairWithDevice, hip, hp]
  simp [hres, updateTokenAfterPair]

/-- Claim C5, witness: pairing with "10.0.0.5" succeeds with credential
"TOKEN" while the store's `Save` fails with "disk full"; the result is still
a success carrying "TOKEN", and the session retains it. -/
theorem pair_success_survives_save_failure_witness :
    ("10.0.0.5" ≠ "") ∧ okClient.pairResp "10.0.0.5" = .ok "TOKEN" ∧
    (pairWithDevice okClient failSaveCM "10.0.0.5").1.success = true ∧
    (pairWithDevice okClient failSaveCM "10.0.0.5").1.data = ResultData.tok "TOKEN" ∧
    (updateTokenAfterPair { ip := "10.0.0.5", token := "" }
        (pairWithDevice okClient failSaveCM "10.0.0.5").1).token = "TOKEN" := by
  refine ⟨by decide, rfl, ?_⟩
  have h := pair_success_survives_save_failure okClient failSaveCM "10.0.0.5" "TOKEN"
    { ip := "10.0.0.5", token := "" } (by decide) rfl
  exact ⟨h.1, h.2.1, h.2.2⟩

/-- Claim C6: every command operation checks its precondition before any
device-API call — `PairWithDevice("")` fails with no API call, and
`SetDevicePower`, `SetBrightness` and `GetDeviceInfo` with an empty address
or credential fail with the not-paired message and no API call. -/
theorem preconditions_before_api_calls {Info : Type} (c : ClientResponses Info)
    (cm : CMResponses) :
    ((pairWithDevice c cm "").1.success = false ∧ (pairWithDevice c cm "").2 = []) ∧
    (∀ ip token : String, ip = "" ∨ token = "" →
      (∀ isOn : Bool,
        (setDevicePower c ip token isOn).1.success = false ∧
        (setDevicePower c ip token isOn).1.message =
          "Device not paired. Please scan and pair first." ∧
        (setDevicePower c ip token isOn).2 = []) ∧
      (∀ b : Int,
        (setBrightnessService c ip token b).1.success = false ∧
        (setBrightnessService c ip token b).1.message =
          "Device not paired. Please scan and pair first." ∧
        (setBrightnessService c ip token b).2 = []) ∧
      ((getDeviceInfo c ip token).1.success = false ∧
       (getDeviceInfo c ip token).1.message =
         "Device not paired. Please scan and pair first." ∧
       (getDeviceInfo c ip token).2 = [])) := by
  refine ⟨⟨rfl, rfl⟩, ?_⟩
  intro ip token h
  rcases h with h | h <;>
    exact ⟨fun isOn => by simp [setDevicePower, h],
           fun b => by simp [setBrightnessService, h],
           by simp [getDeviceInfo, h]⟩

/-- Claim C6, witness: the power command with an empty address and non-empty
credential fails with the not-paired message and performs no API call. -/
theorem preconditions_before_api_calls_witness :
    ("" = "" ∨ "T1" = "") ∧
    (setDevicePower okClient "" "T1" true).1.success = false ∧
    (setDevicePower okClient "" "T1" true).1.message =
      "Device not paired. Please scan and pair first." ∧
    (setDevicePower okClient "" "T1" true).2 = [] :=
  ⟨Or.inl rfl,
   ((preconditions_before_api_calls okClient failSaveCM).2 "" "T1" (Or.inl rfl)).1 true⟩

/-- Claim C7: for every non-empty ip and token, `Save(ip, token)` succeeds
and a subsequent `Load` returns exactly the config `{ip, token}`, from any
prior store state; and `Load` on an empty store (no record saved) fails with
an error. -/
theorem store_save_load_roundtrip :
    (∀ (ip token : String) (st : StoreState), ip ≠ "" → token ≠ "" →
      (cmSave ip token st).1 = Except.ok () ∧
      cmLoad (cmSave ip token st).2 = Except.ok { ip := ip, token := token }) ∧
    cmLoad none = Except.error "config file does not exist" := by
  refine ⟨?_, rfl⟩
  intro ip token st hip htok
  constructor
  · simp [cmSave, hip, htok]
  · simp [cmSave, cmLoad, hip, htok]

/-- Claim C7, witness: saving the pair ("192.168.1.100", "tok1") on an empty
store and loading it back. -/
theorem store_save_load_roundtrip_witness :
    ("192.168.1.100" ≠ "") ∧ ("tok1" ≠ "") ∧
    (cmSave "192.168.1.100" "tok1" none).1 = Except.ok () ∧
    cmLoad (cmSave "192.168.1.100" "tok1" none).2 =
      Except.ok { ip := "192.168.1.100", token := "tok1" } :=
  ⟨by decide, by decide,
   store_save_load_roundtrip.1 "192.168.1.100" "tok1" none (by decide) (by decide)⟩

/-- Claim C8: the session's derived readiness is true exactly when the
address and credential are both non-empty and the device API's `getInfo`
probe for them succeeds — never from credential presence alone — and a
positive verdict is always backed by an actual probe call. -/
theorem readiness_iff_probe_success {Info : Type}
    (getInfoFn : String → String → Except String Info) (cfg : Config) :
    ((isDeviceReady getInfoFn cfg).1 = true ↔
      cfg.ip ≠ "" ∧ cfg.token ≠ "" ∧ ∃ v, getInfoFn cfg.ip cfg.token = .ok v) ∧
    ((isDeviceReady getInfoFn cfg).1 = true →
      (isDeviceReady getInfoFn cfg).2 = [ClientCall.getInfoCall cfg.ip cfg.token]) := by
  by_cases hc : cfg.ip = "" ∨ cfg.token = ""
  · constructor
    · constructor
      · intro h
        simp [isDeviceReady, hc] at h
      · rintro ⟨h1, h2, -⟩
        rcases hc with hc | hc
        · exact absurd hc h1
        · exact absurd hc h2
    · intro h
      simp [isDeviceReady, hc] at h
  · have hns := not_or.mp hc
    cases hg : getInfoFn cfg.ip cfg.token with
    | error e =>
        constructor
        · constructor
          · intro h
            simp [isDeviceReady, hc, hg] at h
          · rintro ⟨-, -, v, hv⟩
            exact absurd hv (by simp)
        · intro h
          simp [isDeviceReady, hc, hg] at h
    | ok v =>
        constructor
        · exact ⟨fun _ => ⟨hns.1, hns.2, v, rfl⟩, fun _ => by simp [isDeviceReady, hc, hg]⟩
        · intro h
          simp [isDeviceReady, hc, hg]

/-- Claim C8, witness: a paired config with a responsive device probes as
ready. -/
theorem readiness_iff_probe_success_witness :
    (isDeviceReady (fun _ _ => Except.ok ()) { ip := "10.0.0.5", token := "T1" }).1 = true :=
  (readiness_iff_probe_success (fun _ _ => Except.ok ())
      { ip := "10.0.0.5", token := "T1" }).1.mpr
    ⟨by decide, by decide, (), rfl⟩

/-- Claim C9: `LoadConfiguration` fails when the store has no record; fails
with the underlying cause in its message when the record is corrupt or has an
empty address/credential field; and otherwise succeeds carrying the loaded
config as its data. -/
theorem loadConfiguration_cases (Info : Type) :
    ((loadConfiguration Info none).success = false ∧
     (loadConfiguration Info none).message = "No saved configuration found") ∧
    (∀ e : String,
      (loadConfiguration Info (some (FileContent.corrupt e))).success = false ∧
      (loadConfiguration Info (some (FileContent.corrupt e))).message =
        "Failed to load configuration: failed to unmarshal config: " ++ e) ∧
    (∀ c : Config, c.ip = "" ∨ c.token = "" →
      (loadConfiguration Info (some (FileContent.record c))).success = false ∧
      (loadConfiguration Info (some (FileContent.record c))).message =
        "Failed to load configuration: invalid configuration: missing IP or token") ∧
    (∀ c : Config, c.ip ≠ "" → c.token ≠ "" →
      (loadConfiguration Info (some (FileContent.record c))).success = true ∧
      (loadConfiguration Info (some (FileContent.record c))).data =
        ResultData.config c) := by
  refine ⟨⟨rfl, rfl⟩, fun e => ⟨rfl, rfl⟩, ?_, ?_⟩
  · intro c h
    rcases h with h | h <;>
      exact ⟨by simp [loadConfiguration, loadConfigurationWith, cmExists, cmLoad, h],
             by simp [loadConfiguration, loadConfigurationWith, cmExists, cmLoad, h]⟩
  · intro c h1 h2
    constructor
    · simp [loadConfiguration, loadConfigurationWith, cmExists, cmLoad, h1, h2]
    · simp [loadConfiguration, loadConfigurationWith, cmExists, cmLoad, h1, h2]

/-- Claim C9, witness: a record with an empty address fails, and a
well-formed record loads successfully with itself as data. -/
theorem loadConfiguration_cases_witness :
    (loadConfiguration Unit
        (some (FileContent.record { ip := "", token := "t" }))).success = false ∧
    (loadConfiguration Unit
        (some (FileContent.record { ip := "1.2.3.4", token := "t" }))).success = true :=
  ⟨((loadConfiguration_cases Unit).2.2.1 { ip := "", token := "t" } (Or.inl rfl)).1,
   ((loadConfiguration_cases Unit).2.2.2 { ip := "1.2.3.4", token := "t" }
      (by decide) (by decide)).1⟩

/-- Claim C10: `Save` with an empty ip or token returns an error and leaves
the store state — the previously stored record or its absence — unchanged. -/
theorem save_empty_rejected (ip token : String) (st : StoreState)
    (h : ip = "" ∨ token = "") :
    (cmSave ip token st).1 = Except.error "ip and token cannot be empty" ∧
    (cmSave ip token st).2 = st := by
  rw [cmSave, if_pos h]
  exact ⟨rfl, rfl⟩

/-- Claim C10, witness: saving an empty ip over an existing record errors and
keeps the record. -/
theorem save_empty_rejected_witness :
    ("" = "" ∨ "t" = "") ∧
    (cmSave "" "t" (some (FileContent.record { ip := "a", token := "b" }))).1 =
      Except.error "ip and token cannot be empty" ∧
    (cmSave "" "t" (some (FileContent.record { ip := "a", token := "b" }))).2 =
      some (FileContent.record { ip := "a", token := "b" }) :=
  ⟨Or.inl rfl,
   save_empty_rejected "" "t" (some (FileContent.record { ip := "a", token := "b" }))
     (Or.inl rfl)⟩

end NanoleafGo
